import Mathlib

/-!
Shallow embedding of the PomodorUP menu-bar timer (src/test.py, class
PomodoroTimer) in Lean 4, together with theorems settling the frozen claims
about its specification.

Modelling conventions:
* Wall-clock timestamps (datetime.now()) and timedeltas are integers counting
  seconds.  The visualization arithmetic, which the source performs on floats
  obtained from total_seconds(), is modelled over ℚ.
* The mutable object self is modelled as an explicit state value PState; each
  method becomes a function PState → PState (taking the current timestamp as
  an argument where the source calls datetime.now()).
* Icon drawing, menu construction, threads, printing and the actual file
  system are outside the state model; persistence is modelled as a pure
  save/load pair over a document value (see RawDoc below).
* Calendar/strftime formatting of a timestamp in a session record is
  abstracted to the underlying integer timestamp; the HH:MM:SS formatting of
  an elapsed timedelta (_format_timedelta_hms) is modelled faithfully.
-/

namespace PomodorUP

/-- Python f-string 02d padding of an integer (used by _format_timedelta_hms). -/
def pad2 (n : Int) : String :=
  if 0 ≤ n ∧ n < 10 then "0" ++ toString n else toString n

/-- PomodoroTimer._format_timedelta_hms: int total seconds split into
HH:MM:SS with Python floor division and modulo (Int euclidean division). -/
def format_timedelta_hms (total_seconds : Int) : String :=
  let hours := total_seconds / 3600
  let minutes := (total_seconds % 3600) / 60
  let seconds := total_seconds % 60
  pad2 hours ++ ":" ++ pad2 minutes ++ ":" ++ pad2 seconds

/-- One entry of self.sessions (dict with keys id, date, start, end,
target_minutes, elapsed_hms).  The date/start strftime strings are abstracted
to the session-start timestamp start_ts; end to end_ts. -/
structure SessionRecord where
  id : Int
  start_ts : Int
  end_ts : Int
  target_minutes : Int
  elapsed_hms : String
deriving DecidableEq, Repr

/-- The mutable fields of a PomodoroTimer instance that the core operations
read and write. -/
structure PState where
  start_time : Option Int
  is_running : Bool
  is_paused : Bool
  paused_elapsed : Int
  sessions : List SessionRecord
  session_counter : Int
  current_session_start : Option Int
  current_session_target_minutes : Option Int
  target_duration : Int
  recent_targets_minutes : List Int
  text_display_mode : String
  input_buffer : String
deriving DecidableEq, Repr

/-- self.max_recent_targets (set in __init__, never changed). -/
def max_recent_targets : Nat := 5

/-- The valid_modes set checked by _load_state and set_text_display_mode. -/
def valid_modes : List String :=
  ["none", "minutes_elapsed", "minutes_from_target", "minutes_to_target",
   "minutes_past_target"]

/-- The field values assigned by __init__ before _load_state runs
(target_duration = timedelta(minutes=30) is 1800 seconds). -/
def initState : PState :=
  { start_time := none
    is_running := false
    is_paused := false
    paused_elapsed := 0
    sessions := []
    session_counter := 0
    current_session_start := none
    current_session_target_minutes := none
    target_duration := 30 * 60
    recent_targets_minutes := [30]
    text_display_mode := "minutes_elapsed"
    input_buffer := "" }

/-- PomodoroTimer.get_elapsed_time evaluated at timestamp now:
if self.start_time and self.is_running: (now - start_time) + paused_elapsed
else paused_elapsed.  (A datetime is always truthy, so the Python condition
is exactly start_time is not None and is_running.) -/
def get_elapsed_time (now : Int) (s : PState) : Int :=
  match s.start_time with
  | some st => if s.is_running then (now - st) + s.paused_elapsed else s.paused_elapsed
  | none => s.paused_elapsed

/-- PomodoroTimer.start_timer at timestamp now.  A fresh start (not paused,
zero banked elapsed, no open session) opens a new session; in all cases
start_time := now, is_running := true, is_paused := false.  Thread spawning,
printing and menu rebuild are outside the state model. -/
def start_timer (now : Int) (s : PState) : PState :=
  if s.is_running then s
  else
    let s1 :=
      if s.is_paused = false ∧ s.paused_elapsed = 0 ∧ s.current_session_start = none then
        { s with session_counter := s.session_counter + 1
                 current_session_start := some now
                 current_session_target_minutes := some (s.target_duration / 60) }
      else s
    { s1 with start_time := some now, is_running := true, is_paused := false }

/-- PomodoroTimer.pause_timer at timestamp now: when running, bank
now - start_time into paused_elapsed, stop running, mark paused, clear
start_time.  The start_time = none branch would raise a TypeError in Python
(datetime minus None); it is unreachable from any reachable state (see
reachable_inv below) and modelled as a no-op. -/
def pause_timer (now : Int) (s : PState) : PState :=
  if s.is_running then
    match s.start_time with
    | some st =>
        { s with paused_elapsed := s.paused_elapsed + (now - st)
                 is_running := false
                 is_paused := true
                 start_time := none }
    | none => s
  else s

/-- PomodoroTimer._append_session_record: build a record from the open
session, append it to sessions, clear the open-session markers and zero
paused_elapsed.  (self._current_session_start.date() would raise on None; the
callers guard on it being set, modelled by getD 0.) -/
def append_session_record (end_ts : Int) (elapsed_td : Int) (s : PState) : PState :=
  let record : SessionRecord :=
    { id := s.session_counter
      start_ts := s.current_session_start.getD 0
      end_ts := end_ts
      target_minutes :=
        s.current_session_target_minutes.getD (s.target_duration / 60)
      elapsed_hms := format_timedelta_hms elapsed_td }
  { s with sessions := s.sessions ++ [record]
           current_session_start := none
           current_session_target_minutes := none
           paused_elapsed := 0 }

/-- PomodoroTimer.reset_timer at timestamp now: finalize the open session if
one exists and the effective elapsed is positive, then clear all timing
state.  Icon update, printing, persistence flush and menu rebuild are outside
the state model. -/
def reset_timer (now : Int) (s : PState) : PState :=
  let elapsed_before_reset := get_elapsed_time now s
  let s1 :=
    if s.current_session_start ≠ none ∧ elapsed_before_reset > 0 then
      append_session_record now elapsed_before_reset s
    else s
  { s1 with is_running := false
            is_paused := false
            start_time := none
            paused_elapsed := 0 }

/-- PomodoroTimer.set_target_minutes: clamp to [1, 99], update the target
duration (timedelta(minutes=m) is m * 60 seconds) and the MRU recent list:
remove a prior occurrence (Python list.remove of a present element is
List.erase of the first occurrence; absent means no removal, which erase also
models), insert at the front, truncate to max_recent_targets. -/
def set_target_minutes (minutes : Int) (s : PState) : PState :=
  let m := max 1 (min 99 minutes)
  { s with target_duration := m * 60
           recent_targets_minutes :=
             (m :: s.recent_targets_minutes.erase m).take max_recent_targets }

/-- Numeric value of a list of decimal digit characters, most significant
first. -/
def digitsVal (l : List Char) : Nat :=
  l.foldl (fun n c => n * 10 + (c.toNat - 48)) 0

/-- Python int(s) restricted to the shapes the input buffer can hold: a
non-empty all-digit string parses to its value, anything else raises
ValueError, modelled as none. -/
def pyInt (s : String) : Option Int :=
  if s ≠ "" ∧ s.data.all (fun c => c.isDigit) then some (digitsVal s.data) else none

/-- PomodoroTimer._apply_input: empty buffer returns immediately; otherwise
parse, clamp to [1, 99] and forward to set_target_minutes, and — in the
finally block, hence also when int() raises — clear the buffer.  (On a raise
the exception still propagates to the menu callback, but the state effect is
exactly: buffer cleared, nothing else changed.) -/
def apply_input (s : PState) : PState :=
  if s.input_buffer = "" then s
  else
    match pyInt s.input_buffer with
    | some value =>
        { set_target_minutes (max 1 (min 99 value)) s with input_buffer := "" }
    | none => { s with input_buffer := "" }

/-- PomodoroTimer._append_digit for a single digit keypress: non-digits
rejected, leading zero rejected, at most two digits kept. -/
def append_digit (d : Char) (s : PState) : PState :=
  if d.isDigit = false then s
  else if s.input_buffer.length = 0 then
    if d = '0' then s else { s with input_buffer := String.mk [d] }
  else if s.input_buffer.length = 1 then
    { s with input_buffer := s.input_buffer.push d }
  else s

/-- PomodoroTimer._backspace_digit: drop the last buffered character. -/
def backspace_digit (s : PState) : PState :=
  { s with input_buffer := s.input_buffer.dropRight 1 }

/-- PomodoroTimer._clear_input (and _cancel_input): empty the buffer. -/
def clear_input (s : PState) : PState :=
  { s with input_buffer := "" }

/-- PomodoroTimer.set_text_display_mode: invalid modes are ignored. -/
def set_text_display_mode (mode : String) (s : PState) : PState :=
  if mode ∈ valid_modes then { s with text_display_mode := mode } else s

/-- PomodoroTimer._compute_text_and_color: overlay text and RGBA color from
the display mode, the elapsed seconds and the target duration.
elapsed_minutes = max(0, int seconds) // 60; delta = elapsed - target
minutes. -/
def compute_text_and_color (s : PState) (elapsed : Int) : String × (Int × Int × Int × Int) :=
  let white : Int × Int × Int × Int := (255, 255, 255, 255)
  let elapsed_minutes := (max 0 elapsed) / 60
  let target_minutes := s.target_duration / 60
  let delta := elapsed_minutes - target_minutes
  let mode := s.text_display_mode
  if mode = "none" then ("", white)
  else if mode = "minutes_elapsed" then (toString elapsed_minutes, white)
  else if mode = "minutes_from_target" then
    let abs_delta := |delta|
    if delta < 0 then (toString abs_delta, (250, 250, 250, 200))
    else if delta = 0 then ("", (250, 250, 250, 200))
    else (toString abs_delta, (33, 37, 43, 0))
  else if mode = "minutes_to_target" then
    if delta ≥ 0 then ("", (250, 250, 250, 200))
    else (toString |(-delta)|, white)
  else if mode = "minutes_past_target" then
    if delta ≤ 0 then ("", white)
    else (toString delta, (33, 37, 43, 0))
  else (toString elapsed_minutes, (250, 250, 250, 200))

/-! ### Visualization band arithmetic (create_icon), over ℚ -/

/-- create_icon's band palette, bottom to top, as RGBA tuples decoded from
the hex literals #5E46D2FF, #8130C2FF, #A5268CFF, #F22659FF, #FF663FFF,
#F2CC3FFF by hex_to_rgba_tuple. -/
def base_colors : List (Nat × Nat × Nat × Nat) :=
  [(94, 70, 210, 255), (129, 48, 194, 255), (165, 38, 140, 255),
   (242, 38, 89, 255), (255, 102, 63, 255), (242, 204, 63, 255)]

/-- create_icon's grey placeholder color. -/
def grey_color : Nat × Nat × Nat × Nat := (128, 128, 128, 255)

/-- total_target_s = max(1.0, target.total_seconds() or 1.0): the Python
`or 1.0` turns a zero duration into 1.0, and the outer max then clamps from
below by 1, which coincides with max 1 in all cases. -/
def total_target_s (target_s : ℚ) : ℚ := max 1 target_s

/-- part_s = total_target_s / 6.0. -/
def part_s (target_s : ℚ) : ℚ := total_target_s target_s / 6

/-- steps = int(elapsed_s // part_s) with elapsed_s = max(0.0, elapsed
seconds): floor of the quotient. -/
def steps (elapsed_s target_s : ℚ) : ℤ :=
  ⌊max 0 elapsed_s / part_s target_s⌋

/-- The per-band (r, g, b, opacity) list computed by create_icon from the
elapsed seconds, the target seconds and is_running: Phase A fill-in while
steps ≤ 5, post-target loop conversion otherwise, then opacity halved when
not running.  Bands are listed bottom to top, opacity as a 0..1 rational. -/
def renderBands (elapsed_s target_s : ℚ) (running : Bool) : List (Nat × Nat × Nat × ℚ) :=
  let es := max 0 elapsed_s
  let ps := part_s target_s
  let st := steps elapsed_s target_s
  let bands :=
    if st ≤ 5 then
      (List.range 6).map (fun (i : Nat) =>
        if es < (i : ℚ) * ps then
          if running then (grey_color.1, grey_color.2.1, grey_color.2.2.1, (0 : ℚ))
          else (grey_color.1, grey_color.2.1, grey_color.2.2.1, (1 : ℚ))
        else
          let c := base_colors.getD i grey_color
          (c.1, c.2.1, c.2.2.1, (1 : ℚ)))
    else
      let post_target_steps := st - 6
      let loop_index := post_target_steps / 6
      let pos_in_loop := post_target_steps % 6
      let current_target_color := base_colors.getD (loop_index % 6).toNat grey_color
      let previous_color_for_band := fun (i : Nat) =>
        if loop_index = 0 then base_colors.getD i grey_color
        else base_colors.getD ((loop_index - 1) % 6).toNat grey_color
      (List.range 6).map (fun (i : Nat) =>
        let c := if (i : ℤ) ≤ pos_in_loop then current_target_color
                 else previous_color_for_band i
        (c.1, c.2.1, c.2.2.1, (1 : ℚ)))
  if running then bands else bands.map (fun b => (b.1, b.2.1, b.2.2.1, b.2.2.2 * (1 / 2)))

/-! ### Persistence (_save_state / _load_state) -/

/-- The persisted JSON document after the isinstance type checks of
_load_state: a field is some v when present with the checked type, none when
absent or of the wrong type (in which case _load_state leaves the
corresponding default untouched). -/
structure RawDoc where
  sessions : Option (List SessionRecord)
  recent_targets_minutes : Option (List Int)
  target_minutes : Option Int
  text_display_mode : Option String
deriving DecidableEq, Repr

/-- PomodoroTimer._save_state: the payload dict written (atomically, via a
temp file and os.replace) to disk.  target_minutes =
int(total_seconds() // 60). -/
def save_state (s : PState) : RawDoc :=
  { sessions := some s.sessions
    recent_targets_minutes := some s.recent_targets_minutes
    target_minutes := some (s.target_duration / 60)
    text_display_mode := some s.text_display_mode }

/-- Python max over a non-empty list of ids (defaulting to 0 on the
unreachable empty case). -/
def maxIdList : List Int → Int
  | [] => 0
  | x :: xs => xs.foldl max x

/-- PomodoroTimer._load_state applied to the initial state: the argument is
none when the file is missing or json.load raises (the outer try/except then
leaves the state untouched); otherwise each well-typed field is restored,
recent targets clamped to [1, 99] and truncated to max_recent_targets, the
target clamped to [1, 99] minutes, the display mode accepted only when
valid, and the session counter resumed from the maximal existing id (the
inner except-branch cannot trigger on well-typed records). -/
def load_state (doc : Option RawDoc) (s : PState) : PState :=
  match doc with
  | none => s
  | some data =>
    let s1 := match data.sessions with
      | some l => { s with sessions := l }
      | none => s
    let s2 := match data.recent_targets_minutes with
      | some l =>
          { s1 with recent_targets_minutes :=
              (l.map (fun x => max 1 (min 99 x))).take max_recent_targets }
      | none => s1
    let s3 := match data.target_minutes with
      | some tm => { s2 with target_duration := (max 1 (min 99 tm)) * 60 }
      | none => s2
    let s4 := match data.text_display_mode with
      | some m => if m ∈ valid_modes then { s3 with text_display_mode := m } else s3
      | none => s3
    if s4.sessions.isEmpty = true then s4
    else { s4 with session_counter := maxIdList (s4.sessions.map (fun r => r.id)) }

/-! ### Event traces and reachability -/

/-- The state-mutating operations a user can trigger from the menu (each
timestamped where the source reads datetime.now()). -/
inductive Event where
  | start (t : Int)
  | pause (t : Int)
  | reset (t : Int)
  | setTarget (m : Int)
  | applyBuf
  | appendDig (d : Char)
  | backspace
  | clearBuf
  | setMode (m : String)
deriving Repr

/-- Dispatch one event to the corresponding operation. -/
def stepEv (e : Event) (s : PState) : PState :=
  match e with
  | .start t => start_timer t s
  | .pause t => pause_timer t s
  | .reset t => reset_timer t s
  | .setTarget m => set_target_minutes m s
  | .applyBuf => apply_input s
  | .appendDig d => append_digit d s
  | .backspace => backspace_digit s
  | .clearBuf => clear_input s
  | .setMode m => set_text_display_mode m s

/-- Run a list of events from a state. -/
def runEvents (es : List Event) (s : PState) : PState :=
  es.foldl (fun s e => stepEv e s) s

/-- A state is reachable when some startup load followed by some sequence of
menu events produces it. -/
def Reachable (s : PState) : Prop :=
  ∃ doc es, runEvents es (load_state doc initState) = s

/-! ### The running-implies-started invariant -/

/-- While the timer is running, start_time is set (pause_timer relies on
this: datetime.now() - None would raise). -/
def Inv (s : PState) : Prop :=
  s.is_running = true → s.start_time ≠ none

theorem load_state_is_running (doc : Option RawDoc) (s : PState) :
    (load_state doc s).is_running = s.is_running := by
  unfold load_state
  cases doc with
  | none => rfl
  | some data =>
    obtain ⟨se, re, tm, md⟩ := data
    cases se <;> cases re <;> cases tm <;> cases md <;> dsimp only <;>
      (try split) <;> (try split) <;> rfl

theorem load_state_start_time (doc : Option RawDoc) (s : PState) :
    (load_state doc s).start_time = s.start_time := by
  unfold load_state
  cases doc with
  | none => rfl
  | some data =>
    obtain ⟨se, re, tm, md⟩ := data
    cases se <;> cases re <;> cases tm <;> cases md <;> dsimp only <;>
      (try split) <;> (try split) <;> rfl

theorem inv_stepEv (e : Event) (s : PState) (h : Inv s) : Inv (stepEv e s) := by
  unfold Inv at h ⊢
  cases e with
  | start t =>
    simp only [stepEv, start_timer]
    split
    · exact h
    · intro _
      simp
  | pause t =>
    simp only [stepEv, pause_timer]
    split
    · cases hst : s.start_time with
      | some st => intro hr; simp at hr
      | none => exact h
    · exact h
  | reset t =>
    simp only [stepEv, reset_timer]
    intro hr
    simp at hr
  | setTarget m =>
    simp only [stepEv, set_target_minutes]
    exact h
  | applyBuf =>
    simp only [stepEv, apply_input]
    split
    · exact h
    · cases hp : pyInt s.input_buffer with
      | some v => simp only [set_target_minutes]; exact h
      | none => exact h
  | appendDig d =>
    simp only [stepEv, append_digit]
    split
    · exact h
    · split
      · split
        · exact h
        · exact h
      · split
        · exact h
        · exact h
  | backspace =>
    simp only [stepEv, backspace_digit]
    exact h
  | clearBuf =>
    simp only [stepEv, clear_input]
    exact h
  | setMode m =>
    simp only [stepEv, set_text_display_mode]
    split
    · exact h
    · exact h

theorem inv_runEvents (es : List Event) (s : PState) (h : Inv s) :
    Inv (runEvents es s) := by
  induction es generalizing s with
  | nil => exact h
  | cons e t ih => exact ih (stepEv e s) (inv_stepEv e s h)

/-- Every reachable state satisfies the invariant. -/
theorem reachable_inv {s : PState} (h : Reachable s) : Inv s := by
  obtain ⟨doc, es, rfl⟩ := h
  refine inv_runEvents es _ ?_
  intro hr
  rw [load_state_is_running] at hr
  simp [initState] at hr

/-! ### Claims -/

/-- C1: for every reachable state in which the timer is Running, pausing at
timestamp t leaves the elapsed-time query at t unchanged, banks the open
interval t - startedAt into the accumulated elapsed exactly once, and clears
start_time in the same update, so no double-counting is observable. -/
theorem C1_pause_banks_losslessly (s : PState) (t : Int)
    (hr : Reachable s) (hrun : s.is_running = true) :
    get_elapsed_time t (pause_timer t s) = get_elapsed_time t s ∧
    (pause_timer t s).start_time = none ∧
    ∀ st, s.start_time = some st →
      (pause_timer t s).paused_elapsed = s.paused_elapsed + (t - st) := by
  have hinv := reachable_inv hr hrun
  cases hst : s.start_time with
  | none => exact absurd hst hinv
  | some st =>
    refine ⟨?_, ?_, ?_⟩
    · simp only [pause_timer, hrun, if_true, hst, get_elapsed_time]
      ring
    · simp only [pause_timer, hrun, if_true, hst]
    · intro st2 hst2
      cases hst2
      simp only [pause_timer, hrun, if_true, hst]

/-- Witness for C1 at a concrete reachable state: start at 5, pause at 9. -/
theorem C1_pause_banks_losslessly_witness :
    Reachable (start_timer 5 initState) ∧
    (start_timer 5 initState).is_running = true ∧
    get_elapsed_time 9 (pause_timer 9 (start_timer 5 initState)) =
      get_elapsed_time 9 (start_timer 5 initState) ∧
    (pause_timer 9 (start_timer 5 initState)).start_time = none := by
  have hre : Reachable (start_timer 5 initState) := ⟨none, [Event.start 5], rfl⟩
  have h := C1_pause_banks_losslessly (start_timer 5 initState) 9 hre (by decide)
  exact ⟨hre, by decide, h.1, h.2.1⟩

/-- C2: after reset_timer, whatever the prior state, the engine is idle with
all timing fields cleared: not running, not paused, no start_time, zero
accumulated elapsed. -/
theorem C2_reset_returns_to_idle (s : PState) (t : Int) :
    (reset_timer t s).is_running = false ∧
    (reset_timer t s).is_paused = false ∧
    (reset_timer t s).start_time = none ∧
    (reset_timer t s).paused_elapsed = 0 :=
  ⟨rfl, rfl, rfl, rfl⟩

/-- C3: set_target_minutes on a duplicate-free recent list of length at most
5 sets the target to clamp(m, 1, 99) minutes and leaves the clamped value at
index 0 of a duplicate-free recent list of length at most 5. -/
theorem C3_set_target_mru (s : PState) (m : Int)
    (h1 : s.recent_targets_minutes.Nodup)
    (_h2 : s.recent_targets_minutes.length ≤ 5) :
    (set_target_minutes m s).target_duration = (max 1 (min 99 m)) * 60 ∧
    (set_target_minutes m s).recent_targets_minutes.head? =
      some (max 1 (min 99 m)) ∧
    (set_target_minutes m s).recent_targets_minutes.Nodup ∧
    (set_target_minutes m s).recent_targets_minutes.length ≤ 5 := by
  refine ⟨rfl, ?_, ?_, ?_⟩
  · show ((max 1 (min 99 m) :: s.recent_targets_minutes.erase (max 1 (min 99 m))).take
      max_recent_targets).head? = some (max 1 (min 99 m))
    rfl
  · show ((max 1 (min 99 m) :: s.recent_targets_minutes.erase (max 1 (min 99 m))).take
      max_recent_targets).Nodup
    have he := h1.erase (max 1 (min 99 m))
    have hm : max 1 (min 99 m) ∉ s.recent_targets_minutes.erase (max 1 (min 99 m)) :=
      h1.not_mem_erase
    exact (List.nodup_cons.mpr ⟨hm, he⟩).sublist (List.take_sublist _ _)
  · show ((max 1 (min 99 m) :: s.recent_targets_minutes.erase (max 1 (min 99 m))).take
      max_recent_targets).length ≤ 5
    simp only [max_recent_targets, List.length_take]
    omega

/-- Witness for C3 at the initial state and the out-of-range input 150. -/
theorem C3_set_target_mru_witness :
    initState.recent_targets_minutes.Nodup ∧
    initState.recent_targets_minutes.length ≤ 5 ∧
    (set_target_minutes 150 initState).target_duration = (max 1 (min 99 150)) * 60 ∧
    (set_target_minutes 150 initState).recent_targets_minutes.head? =
      some (max 1 (min 99 150)) := by
  have h1 : initState.recent_targets_minutes.Nodup := by decide
  have h2 : initState.recent_targets_minutes.length ≤ 5 := by decide
  have h := C3_set_target_mru initState 150 h1 h2
  exact ⟨h1, h2, h.1, h.2.1⟩

/-- C4: with a target of at least one second (every real target is at least
one minute), at elapsed exactly equal to the target the completed-band count
steps is exactly 6 — the value at which create_icon leaves the Phase-A
fill-in branch — while for every elapsed strictly below the target it is at
most 5, keeping the render in Phase A. -/
theorem C4_phase_boundary (target_s : ℚ) (h : 1 ≤ target_s) :
    steps target_s target_s = 6 ∧
    ∀ elapsed_s : ℚ, elapsed_s < target_s → steps elapsed_s target_s ≤ 5 := by
  have h0 : (0:ℚ) < target_s := lt_of_lt_of_le one_pos h
  have hne : target_s ≠ 0 := ne_of_gt h0
  have hps : part_s target_s = target_s / 6 := by
    rw [part_s, total_target_s, max_eq_right h]
  have hpos : (0:ℚ) < target_s / 6 := by positivity
  constructor
  · rw [steps, hps, max_eq_right h0.le]
    have h6 : target_s / (target_s / 6) = 6 := by
      field_simp
    rw [h6]
    norm_num
  · intro e he
    rw [steps, hps]
    have hlt : max 0 e < target_s := max_lt h0 he
    have hq : max 0 e / (target_s / 6) < 6 := by
      rw [div_lt_iff₀ hpos]
      calc max 0 e < target_s := hlt
        _ = 6 * (target_s / 6) := by field_simp
    have hfl : ⌊max 0 e / (target_s / 6)⌋ < (6:ℤ) :=
      Int.floor_lt.mpr (by exact_mod_cast hq)
    omega

/-- Witness for C4 at a one-minute target: boundary at 60 s, Phase A at 30 s. -/
theorem C4_phase_boundary_witness :
    (1:ℚ) ≤ 60 ∧ steps 60 60 = 6 ∧ (30:ℚ) < 60 ∧ steps 30 60 ≤ 5 := by
  have h := C4_phase_boundary 60 (by norm_num)
  exact ⟨by norm_num, h.1, by norm_num, h.2 30 (by norm_num)⟩

/-- C5: with a 12-minute target and 14 minutes elapsed while running
(Phase B, loop 0, position 1), the rendered bands are palette color 0 at
positions 0 and 1 and the Phase-A rainbow colors at positions 2 to 5, all at
full opacity. -/
theorem C5_post_target_loop0 :
    renderBands 840 720 true =
      [(94, 70, 210, (1:ℚ)), (94, 70, 210, 1), (165, 38, 140, 1),
       (242, 38, 89, 1), (255, 102, 63, 1), (242, 204, 63, 1)] := by
  have h1 : part_s 720 = 120 := by
    rw [part_s, total_target_s, max_eq_right (by norm_num : (1:ℚ) ≤ 720)]
    norm_num
  have h2 : steps 840 720 = 7 := by
    rw [steps, h1, max_eq_right (by norm_num : (0:ℚ) ≤ 840)]
    norm_num
  simp only [renderBands, h2]
  norm_num [base_colors, grey_color, List.range_succ]

/-- The initial state switched to the minutes_from_target display mode. -/
def fromTargetState : PState :=
  { initState with text_display_mode := "minutes_from_target" }

/-- What _compute_text_and_color returns in minutes_from_target mode, as a
function of the minute delta. -/
theorem compute_from_target_cases (s : PState) (elapsed : Int)
    (hm : s.text_display_mode = "minutes_from_target") :
    compute_text_and_color s elapsed =
      (if (max 0 elapsed) / 60 - s.target_duration / 60 < 0 then
        (toString |(max 0 elapsed) / 60 - s.target_duration / 60|,
         (250, 250, 250, 200))
      else if (max 0 elapsed) / 60 - s.target_duration / 60 = 0 then
        ("", (250, 250, 250, 200))
      else
        (toString |(max 0 elapsed) / 60 - s.target_duration / 60|,
         (33, 37, 43, 0))) := by
  simp only [compute_text_and_color, hm]
  rw [if_neg (by decide : ¬("minutes_from_target" = "none")),
      if_neg (by decide : ¬("minutes_from_target" = "minutes_elapsed")),
      if_pos trivial]

/-- C6 counterexample: in minutes_from_target mode with 30 minutes elapsed
against the default 30-minute target the delta is zero and the overlay text
is empty — not the unsigned delta "0" the claim requires for every delta. -/
theorem C6_counterexample_zero_delta :
    (compute_text_and_color fromTargetState 1800).1 = "" ∧
    ("" : String) ≠ "0" := by
  constructor
  · decide
  · decide

/-- C6 amended: in minutes_from_target mode the overlay text is the unsigned
whole-minute delta whenever the delta is nonzero, but empty when the delta
is zero; the overlay color still signals the direction (one color below
target, another past it). -/
theorem C6_from_target_amended (s : PState) (elapsed : Int)
    (hm : s.text_display_mode = "minutes_from_target") :
    ((max 0 elapsed) / 60 - s.target_duration / 60 ≠ 0 →
      (compute_text_and_color s elapsed).1 =
        toString |(max 0 elapsed) / 60 - s.target_duration / 60|) ∧
    ((max 0 elapsed) / 60 - s.target_duration / 60 = 0 →
      (compute_text_and_color s elapsed).1 = "") ∧
    ((max 0 elapsed) / 60 - s.target_duration / 60 < 0 →
      (compute_text_and_color s elapsed).2 = (250, 250, 250, 200)) ∧
    (0 < (max 0 elapsed) / 60 - s.target_duration / 60 →
      (compute_text_and_color s elapsed).2 = (33, 37, 43, 0)) := by
  rw [compute_from_target_cases s elapsed hm]
  refine ⟨?_, ?_, ?_, ?_⟩ <;> intro hcase
  · rcases lt_or_gt_of_ne hcase with hlt | hgt
    · rw [if_pos hlt]
    · rw [if_neg (by omega), if_neg hcase]
  · rw [if_neg (by omega), if_pos hcase]
  · rw [if_pos hcase]
  · rw [if_neg (by omega), if_neg (by omega)]

/-- Witness for C6 amended: zero elapsed against the 30-minute target gives
delta -30, shown as "30" in the below-target color. -/
theorem C6_from_target_amended_witness :
    fromTargetState.text_display_mode = "minutes_from_target" ∧
    (max 0 (0:Int)) / 60 - fromTargetState.target_duration / 60 ≠ 0 ∧
    (compute_text_and_color fromTargetState 0).1 =
      toString |(max 0 (0:Int)) / 60 - fromTargetState.target_duration / 60| := by
  have h := C6_from_target_amended fromTargetState 0 (by decide)
  exact ⟨by decide, by decide, h.1 (by decide)⟩

/-- Clamping every element of a list already inside [1, 99] changes
nothing. -/
theorem map_clamp_id {l : List Int} (h : ∀ x ∈ l, 1 ≤ x ∧ x ≤ 99) :
    l.map (fun x => max 1 (min 99 x)) = l := by
  induction l with
  | nil => rfl
  | cons a t ih =>
    have ha := h a (by simp)
    simp only [List.map_cons]
    rw [ih (fun x hx => h x (by simp [hx]))]
    have : max 1 (min 99 a) = a := by omega
    rw [this]

/-- C7: saving a state whose target minutes and recent entries lie in
[1, 99], with at most max_recent_targets recent entries and a valid display
mode, then loading the document into any startup state, reproduces the
sessions, recent-target list, target duration and display mode. -/
theorem C7_save_load_roundtrip (s0 s : PState) (m : Int)
    (ht : s.target_duration = m * 60) (hm1 : 1 ≤ m) (hm2 : m ≤ 99)
    (hrange : ∀ x ∈ s.recent_targets_minutes, 1 ≤ x ∧ x ≤ 99)
    (hlen : s.recent_targets_minutes.length ≤ max_recent_targets)
    (hmode : s.text_display_mode ∈ valid_modes) :
    (load_state (some (save_state s)) s0).sessions = s.sessions ∧
    (load_state (some (save_state s)) s0).recent_targets_minutes =
      s.recent_targets_minutes ∧
    (load_state (some (save_state s)) s0).target_duration = s.target_duration ∧
    (load_state (some (save_state s)) s0).text_display_mode =
      s.text_display_mode := by
  have htm : s.target_duration / 60 = m := by omega
  have hclamp : max 1 (min 99 m) = m := by omega
  have htd : (max 1 (min 99 (s.target_duration / 60))) * 60 = s.target_duration := by
    rw [htm, hclamp, ht]
  simp only [load_state, save_state, htd, map_clamp_id hrange,
    List.take_of_length_le hlen, if_pos hmode]
  split <;> exact ⟨rfl, rfl, rfl, rfl⟩

/-- Witness for C7 at the initial in-memory state. -/
theorem C7_save_load_roundtrip_witness :
    initState.target_duration = 30 * 60 ∧
    (∀ x ∈ initState.recent_targets_minutes, 1 ≤ x ∧ x ≤ 99) ∧
    initState.recent_targets_minutes.length ≤ max_recent_targets ∧
    initState.text_display_mode ∈ valid_modes ∧
    (load_state (some (save_state initState)) initState).recent_targets_minutes =
      initState.recent_targets_minutes ∧
    (load_state (some (save_state initState)) initState).target_duration =
      initState.target_duration := by
  have h := C7_save_load_roundtrip initState initState 30 (by decide)
    (by decide) (by decide) (by decide) (by decide) (by decide)
  exact ⟨by decide, by decide, by decide, by decide, h.2.1, h.2.2.1⟩

/-- A persisted document carrying out-of-range values: target 150 minutes,
recent entries 0 and 150. -/
def overloadedDoc : RawDoc :=
  { sessions := none
    recent_targets_minutes := some [0, 150]
    target_minutes := some 150
    text_display_mode := none }

/-- C8 counterexample: loading a document whose persisted target is the
out-of-range 150 produces a 99-minute target — the value is clamped into
range, not replaced with the 30-minute default the claim requires for
out-of-range values (and not kept either). -/
theorem C8_counterexample_clamped_not_default :
    (load_state (some overloadedDoc) initState).target_duration = 99 * 60 ∧
    initState.target_duration = 30 * 60 ∧
    (99 * 60 : Int) ≠ 30 * 60 ∧ (99 * 60 : Int) ≠ 150 * 60 := by
  refine ⟨by decide, by decide, by decide, by decide⟩

/-- The target duration that load_state restores from a document with a
well-typed target_minutes field. -/
theorem load_state_target_of_int (s : PState) (doc : RawDoc) (tm : Int)
    (h1 : doc.target_minutes = some tm) :
    (load_state (some doc) s).target_duration = (max 1 (min 99 tm)) * 60 := by
  obtain ⟨se, re, tmf, md⟩ := doc
  simp only at h1
  subst h1
  cases se <;> cases re <;> cases md <;> dsimp only [load_state] <;>
    (try split) <;> (try split) <;> rfl

/-- The recent-target list that load_state restores from a document with a
well-typed recent_targets_minutes field. -/
theorem load_state_recent_of_list (s : PState) (doc : RawDoc) (l : List Int)
    (h2 : doc.recent_targets_minutes = some l) :
    (load_state (some doc) s).recent_targets_minutes =
      (l.map (fun x => max 1 (min 99 x))).take max_recent_targets := by
  obtain ⟨se, re, tmf, md⟩ := doc
  simp only at h2
  subst h2
  cases se <;> cases tmf <;> cases md <;> dsimp only [load_state] <;>
    (try split) <;> (try split) <;> rfl

/-- C8 amended: a missing file or malformed JSON leaves the defaults
untouched and the load — being a total function of the document — never
raises; a well-typed but out-of-range persisted target or recent entry is
clamped into [1, 99] (not replaced by the default), so every loaded value is
in range. -/
theorem C8_load_failure_recovery_amended (s : PState) (doc : RawDoc)
    (tm : Int) (l : List Int)
    (h1 : doc.target_minutes = some tm)
    (h2 : doc.recent_targets_minutes = some l) :
    load_state none s = s ∧
    (load_state (some doc) s).target_duration = (max 1 (min 99 tm)) * 60 ∧
    (1 : Int) ≤ max 1 (min 99 tm) ∧ max 1 (min 99 tm) ≤ 99 ∧
    (load_state (some doc) s).recent_targets_minutes =
      (l.map (fun x => max 1 (min 99 x))).take max_recent_targets ∧
    ∀ x ∈ (load_state (some doc) s).recent_targets_minutes, 1 ≤ x ∧ x ≤ 99 := by
  refine ⟨rfl, load_state_target_of_int s doc tm h1, by omega, by omega,
    load_state_recent_of_list s doc l h2, ?_⟩
  intro x hx
  rw [load_state_recent_of_list s doc l h2] at hx
  have hx2 := List.mem_of_mem_take hx
  obtain ⟨y, _, hy⟩ := List.mem_map.mp hx2
  omega

/-- Witness for C8 amended at the out-of-range document: 150 is clamped to
99, the recent entries 0 and 150 to 1 and 99. -/
theorem C8_load_failure_recovery_amended_witness :
    overloadedDoc.target_minutes = some 150 ∧
    overloadedDoc.recent_targets_minutes = some [0, 150] ∧
    load_state none initState = initState ∧
    (load_state (some overloadedDoc) initState).target_duration =
      (max 1 (min 99 150)) * 60 ∧
    (load_state (some overloadedDoc) initState).recent_targets_minutes =
      ([0, 150].map (fun x => max 1 (min 99 x))).take max_recent_targets := by
  have h := C8_load_failure_recovery_amended initState overloadedDoc 150 [0, 150]
    (by decide) (by decide)
  exact ⟨by decide, by decide, h.1, h.2.1, h.2.2.2.2.1⟩

/-- C9: apply on a non-empty buffer parses it as an integer, clamps the
value to [1, 99], forwards the clamped value to set_target_minutes and then
clears the buffer — also when the parse raises, per the finally block —
while apply on an empty buffer changes nothing at all. -/
theorem C9_apply_input_semantics (s : PState) :
    (s.input_buffer = "" → apply_input s = s) ∧
    (s.input_buffer ≠ "" →
      (apply_input s).input_buffer = "" ∧
      (∀ v, pyInt s.input_buffer = some v →
        (apply_input s).target_duration = (max 1 (min 99 v)) * 60 ∧
        (apply_input s).recent_targets_minutes =
          (set_target_minutes (max 1 (min 99 v)) s).recent_targets_minutes) ∧
      (pyInt s.input_buffer = none → apply_input s = { s with input_buffer := "" })) := by
  constructor
  · intro h
    simp only [apply_input, if_pos h]
  · intro h
    refine ⟨?_, ?_, ?_⟩
    · simp only [apply_input, if_neg h]
      cases hp : pyInt s.input_buffer <;> rfl
    · intro v hv
      simp only [apply_input, if_neg h, hv]
      constructor
      · show (set_target_minutes (max 1 (min 99 v)) s).target_duration =
          (max 1 (min 99 v)) * 60
        simp only [set_target_minutes]
        omega
      · trivial
    · intro hn
      simp only [apply_input, if_neg h, hn]

/-- Witness for C9 with the buffer "30": applied target is 30 minutes and
the buffer is cleared. -/
theorem C9_apply_input_semantics_witness :
    ({ initState with input_buffer := "30" } : PState).input_buffer ≠ "" ∧
    pyInt "30" = some 30 ∧
    (apply_input { initState with input_buffer := "30" }).input_buffer = "" ∧
    (apply_input { initState with input_buffer := "30" }).target_duration =
      (max 1 (min 99 30)) * 60 := by
  have h := (C9_apply_input_semantics { initState with input_buffer := "30" }).2
    (by decide)
  exact ⟨by decide, by decide, h.1, (h.2.1 30 (by decide)).1⟩

/-- C10: resetting while a session is open but the effective elapsed time is
zero appends no session record and leaves the open-session marker set with
its stale timestamp; the next start therefore neither increments the session
counter nor opens a new session. -/
theorem C10_reset_zero_elapsed_stale_session (s : PState) (t t2 c : Int)
    (hopen : s.current_session_start = some c)
    (hz : get_elapsed_time t s = 0) :
    (reset_timer t s).sessions = s.sessions ∧
    (reset_timer t s).current_session_start = some c ∧
    (start_timer t2 (reset_timer t s)).session_counter = s.session_counter ∧
    (start_timer t2 (reset_timer t s)).current_session_start = some c := by
  have hcond : ¬(s.current_session_start ≠ none ∧ get_elapsed_time t s > 0) := by
    rw [hz]
    simp
  have hres : reset_timer t s =
      { s with is_running := false, is_paused := false, start_time := none,
               paused_elapsed := 0 } := by
    simp only [reset_timer, if_neg hcond]
  rw [hres]
  refine ⟨rfl, hopen, ?_, ?_⟩ <;> simp [start_timer, hopen]

/-- Witness for C10: start at time 5, reset at time 5 (zero elapsed), start
again at time 7 — the counter stays at 1 and the stale start 5 is kept. -/
theorem C10_reset_zero_elapsed_stale_session_witness :
    (start_timer 5 initState).current_session_start = some 5 ∧
    get_elapsed_time 5 (start_timer 5 initState) = 0 ∧
    (reset_timer 5 (start_timer 5 initState)).sessions =
      (start_timer 5 initState).sessions ∧
    (start_timer 7 (reset_timer 5 (start_timer 5 initState))).session_counter =
      (start_timer 5 initState).session_counter ∧
    (start_timer 7 (reset_timer 5 (start_timer 5 initState))).current_session_start =
      some 5 := by
  have h := C10_reset_zero_elapsed_stale_session (start_timer 5 initState) 5 7 5
    (by decide) (by decide)
  exact ⟨by decide, by decide, h.1, h.2.2.1, h.2.2.2⟩

end PomodorUP
